import Mathlib

/-!
The patched ZeroMQ platform header for iOS.

A verification development for `wrappers/ios/ci/platform-patched.hpp`, the
autoheader-generated `platform.hpp` of ZeroMQ 4.2.0 with `clock_gettime`
switched off by hand.

The header is embedded as the sequence of its lexical items (block comments
with their text, blank lines, and preprocessor directives) in source order.
On top of that sit

* a small-step model of the C preprocessor restricted to the directive forms
  that occur in the header (`#define`, `#undef`, `#ifndef`, `#endif`), acting
  on a macro environment, and
* syntactic projections of the item list (active directives, commented-out
  `#undef` entries, documentation paragraphs), and
* `sourceLines`, which prints the items back as the physical lines of the
  file, so that items can be located by line number.
-/

namespace PlatformPatched

/-- One lexical item of the header.  A block comment keeps the text between
its opening and closing delimiters, one string per physical source line. -/
inductive Line where
  | blank
  | comment (text : List String)
  | define (name body : String)
  | undef (name : String)
  | ifndef (name : String)
  | endif
  deriving DecidableEq

/-- The items of `platform-patched.hpp`, top to bottom. -/
def header : List Line := [
  Line.comment ["", "Workaround to disable clock_gettime since it is only available on iOS 10+.", "Taken from https://github.com/evernym/libzmq-ios", ""],
  Line.blank,
  Line.comment [" src/platform.hpp.  Generated from platform.hpp.in by configure.  "],
  Line.comment [" src/platform.hpp.in.  Generated from configure.ac by autoheader.  "],
  Line.blank,
  Line.comment [" Define to 1 if you have the <alloca.h> header file. "],
  Line.define "HAVE_ALLOCA_H" "1",
  Line.blank,
  Line.comment [" Define to 1 if you have the <arpa/inet.h> header file. "],
  Line.define "HAVE_ARPA_INET_H" "1",
  Line.blank,
  Line.comment [" Define to 1 if you have the `clock_gettime' function. "],
  Line.undef "HAVE_CLOCK_GETTIME",
  Line.blank,
  Line.comment [" define if the compiler supports basic C++11 syntax "],
  Line.define "HAVE_CXX11" "1",
  Line.blank,
  Line.comment [" Define to 1 if you have the declaration of `LOCAL_PEERCRED', and to 0 if", "   you don't. "],
  Line.define "HAVE_DECL_LOCAL_PEERCRED" "0",
  Line.blank,
  Line.comment [" Define to 1 if you have the declaration of `SO_PEERCRED', and to 0 if you", "   don't. "],
  Line.define "HAVE_DECL_SO_PEERCRED" "0",
  Line.blank,
  Line.comment [" Define to 1 if you have the <dlfcn.h> header file. "],
  Line.define "HAVE_DLFCN_H" "1",
  Line.blank,
  Line.comment [" Define to 1 if you have the <errno.h> header file. "],
  Line.define "HAVE_ERRNO_H" "1",
  Line.blank,
  Line.comment [" Define to 1 if you have the `fork' function. "],
  Line.define "HAVE_FORK" "1",
  Line.blank,
  Line.comment [" Define to 1 if you have the `freeifaddrs' function. "],
  Line.define "HAVE_FREEIFADDRS" "1",
  Line.blank,
  Line.comment [" Define to 1 if you have the `gethrtime' function. "],
  Line.comment [" #undef HAVE_GETHRTIME "],
  Line.blank,
  Line.comment [" Define to 1 if you have the `getifaddrs' function. "],
  Line.define "HAVE_GETIFADDRS" "1",
  Line.blank,
  Line.comment [" Define to 1 if you have the `gettimeofday' function. "],
  Line.define "HAVE_GETTIMEOFDAY" "1",
  Line.blank,
  Line.comment [" Define to 1 if you have the <gssapi/gssapi_generic.h> header file. "],
  Line.comment [" #undef HAVE_GSSAPI_GSSAPI_GENERIC_H "],
  Line.blank,
  Line.comment [" Define to 1 if you have the <ifaddrs.h> header file. "],
  Line.define "HAVE_IFADDRS_H" "1",
  Line.blank,
  Line.comment [" Define to 1 if you have the <inttypes.h> header file. "],
  Line.define "HAVE_INTTYPES_H" "1",
  Line.blank,
  Line.comment [" Define to 1 if you have the `iphlpapi' library (-liphlpapi). "],
  Line.comment [" #undef HAVE_LIBIPHLPAPI "],
  Line.blank,
  Line.comment [" Define to 1 if you have the `nsl' library (-lnsl). "],
  Line.comment [" #undef HAVE_LIBNSL "],
  Line.blank,
  Line.comment [" Define to 1 if you have the `pthread' library (-lpthread). "],
  Line.define "HAVE_LIBPTHREAD" "1",
  Line.blank,
  Line.comment [" Define to 1 if you have the `rpcrt4' library (-lrpcrt4). "],
  Line.comment [" #undef HAVE_LIBRPCRT4 "],
  Line.blank,
  Line.comment [" Define to 1 if you have the `rt' library (-lrt). "],
  Line.comment [" #undef HAVE_LIBRT "],
  Line.blank,
  Line.comment [" Define to 1 if you have the `socket' library (-lsocket). "],
  Line.comment [" #undef HAVE_LIBSOCKET "],
  Line.blank,
  Line.comment [" The libunwind library is to be used "],
  Line.comment [" #undef HAVE_LIBUNWIND "],
  Line.blank,
  Line.comment [" Define to 1 if you have the `ws2_32' library (-lws2_32). "],
  Line.comment [" #undef HAVE_LIBWS2_32 "],
  Line.blank,
  Line.comment [" Define to 1 if you have the <limits.h> header file. "],
  Line.define "HAVE_LIMITS_H" "1",
  Line.blank,
  Line.comment [" Define to 1 if you have the <memory.h> header file. "],
  Line.define "HAVE_MEMORY_H" "1",
  Line.blank,
  Line.comment [" Define to 1 if you have the `memset' function. "],
  Line.define "HAVE_MEMSET" "1",
  Line.blank,
  Line.comment [" Define to 1 if you have the `mkdtemp' function. "],
  Line.define "HAVE_MKDTEMP" "1",
  Line.blank,
  Line.comment [" Define to 1 if you have the <netinet/in.h> header file. "],
  Line.define "HAVE_NETINET_IN_H" "1",
  Line.blank,
  Line.comment [" Define to 1 if you have the <netinet/tcp.h> header file. "],
  Line.define "HAVE_NETINET_TCP_H" "1",
  Line.blank,
  Line.comment [" Define to 1 if you have the `perror' function. "],
  Line.define "HAVE_PERROR" "1",
  Line.blank,
  Line.comment [" Define to 1 if you have the `posix_memalign' function. "],
  Line.define "HAVE_POSIX_MEMALIGN" "1",
  Line.blank,
  Line.comment [" Define to 1 if you have the `socket' function. "],
  Line.define "HAVE_SOCKET" "1",
  Line.blank,
  Line.comment [" Define to 1 if stdbool.h conforms to C99. "],
  Line.define "HAVE_STDBOOL_H" "1",
  Line.blank,
  Line.comment [" Define to 1 if you have the <stddef.h> header file. "],
  Line.define "HAVE_STDDEF_H" "1",
  Line.blank,
  Line.comment [" Define to 1 if you have the <stdint.h> header file. "],
  Line.define "HAVE_STDINT_H" "1",
  Line.blank,
  Line.comment [" Define to 1 if you have the <stdlib.h> header file. "],
  Line.define "HAVE_STDLIB_H" "1",
  Line.blank,
  Line.comment [" Define to 1 if you have the <strings.h> header file. "],
  Line.define "HAVE_STRINGS_H" "1",
  Line.blank,
  Line.comment [" Define to 1 if you have the <string.h> header file. "],
  Line.define "HAVE_STRING_H" "1",
  Line.blank,
  Line.comment [" Define to 1 if you have the <sys/eventfd.h> header file. "],
  Line.comment [" #undef HAVE_SYS_EVENTFD_H "],
  Line.blank,
  Line.comment [" Define to 1 if you have the <sys/socket.h> header file. "],
  Line.define "HAVE_SYS_SOCKET_H" "1",
  Line.blank,
  Line.comment [" Define to 1 if you have the <sys/stat.h> header file. "],
  Line.define "HAVE_SYS_STAT_H" "1",
  Line.blank,
  Line.comment [" Define to 1 if you have the <sys/time.h> header file. "],
  Line.define "HAVE_SYS_TIME_H" "1",
  Line.blank,
  Line.comment [" Define to 1 if you have the <sys/types.h> header file. "],
  Line.define "HAVE_SYS_TYPES_H" "1",
  Line.blank,
  Line.comment [" Define to 1 if you have the <sys/uio.h> header file. "],
  Line.define "HAVE_SYS_UIO_H" "1",
  Line.blank,
  Line.comment [" Define to 1 if you have the <time.h> header file. "],
  Line.define "HAVE_TIME_H" "1",
  Line.blank,
  Line.comment [" Define to 1 if you have the <unistd.h> header file. "],
  Line.define "HAVE_UNISTD_H" "1",
  Line.blank,
  Line.comment [" Define to 1 if you have the <windows.h> header file. "],
  Line.comment [" #undef HAVE_WINDOWS_H "],
  Line.blank,
  Line.comment [" Define to 1 if the system has the type `_Bool'. "],
  Line.comment [" #undef HAVE__BOOL "],
  Line.blank,
  Line.comment [" Define to the sub-directory in which libtool stores uninstalled libraries.", "   "],
  Line.define "LT_OBJDIR" "\".libs/\"",
  Line.blank,
  Line.comment [" Name of package "],
  Line.define "PACKAGE" "\"zeromq\"",
  Line.blank,
  Line.comment [" Define to the address where bug reports for this package should be sent. "],
  Line.define "PACKAGE_BUGREPORT" "\"zeromq-dev@lists.zeromq.org\"",
  Line.blank,
  Line.comment [" Define to the full name of this package. "],
  Line.define "PACKAGE_NAME" "\"zeromq\"",
  Line.blank,
  Line.comment [" Define to the full name and version of this package. "],
  Line.define "PACKAGE_STRING" "\"zeromq 4.2.0\"",
  Line.blank,
  Line.comment [" Define to the one symbol short name of this package. "],
  Line.define "PACKAGE_TARNAME" "\"zeromq\"",
  Line.blank,
  Line.comment [" Define to the home page for this package. "],
  Line.define "PACKAGE_URL" "\"\"",
  Line.blank,
  Line.comment [" Define to the version of this package. "],
  Line.define "PACKAGE_VERSION" "\"4.2.0\"",
  Line.blank,
  Line.comment [" Define as the return type of signal handlers (`int' or `void'). "],
  Line.define "RETSIGTYPE" "void",
  Line.blank,
  Line.comment [" Define to 1 if you have the ANSI C header files. "],
  Line.define "STDC_HEADERS" "1",
  Line.blank,
  Line.comment [" Define to 1 if you can safely include both <sys/time.h> and <time.h>. "],
  Line.define "TIME_WITH_SYS_TIME" "1",
  Line.blank,
  Line.comment [" Version number of package "],
  Line.define "VERSION" "\"4.2.0\"",
  Line.blank,
  Line.comment [" Enable militant API assertions "],
  Line.comment [" #undef ZMQ_ACT_MILITANT "],
  Line.blank,
  Line.comment [" Provide draft classes and methods "],
  Line.define "ZMQ_BUILD_DRAFT_API" "1",
  Line.blank,
  Line.comment [" Force to use mutexes "],
  Line.comment [" #undef ZMQ_FORCE_MUTEXES "],
  Line.blank,
  Line.comment [" Have AIX OS "],
  Line.comment [" #undef ZMQ_HAVE_AIX "],
  Line.blank,
  Line.comment [" Have Android OS "],
  Line.comment [" #undef ZMQ_HAVE_ANDROID "],
  Line.blank,
  Line.comment [" Whether compiler has __atomic_Xxx intrinsics. "],
  Line.define "ZMQ_HAVE_ATOMIC_INTRINSICS" "1",
  Line.blank,
  Line.comment [" Using curve encryption "],
  Line.define "ZMQ_HAVE_CURVE" "1",
  Line.blank,
  Line.comment [" Have Cygwin "],
  Line.comment [" #undef ZMQ_HAVE_CYGWIN "],
  Line.blank,
  Line.comment [" Have DragonFly OS "],
  Line.comment [" #undef ZMQ_HAVE_DRAGONFLY "],
  Line.blank,
  Line.comment [" Have eventfd extension "],
  Line.comment [" #undef ZMQ_HAVE_EVENTFD "],
  Line.blank,
  Line.comment [" Have FreeBSD OS "],
  Line.comment [" #undef ZMQ_HAVE_FREEBSD "],
  Line.blank,
  Line.comment [" Have GNU/Hurd OS "],
  Line.comment [" #undef ZMQ_HAVE_GNU "],
  Line.blank,
  Line.comment [" Have HPUX OS "],
  Line.comment [" #undef ZMQ_HAVE_HPUX "],
  Line.blank,
  Line.comment [" Have ifaddrs.h header. "],
  Line.define "ZMQ_HAVE_IFADDRS" "1",
  Line.blank,
  Line.comment [" Have Linux OS "],
  Line.comment [" #undef ZMQ_HAVE_LINUX "],
  Line.blank,
  Line.comment [" Have LOCAL_PEERCRED socket option "],
  Line.comment [" #undef ZMQ_HAVE_LOCAL_PEERCRED "],
  Line.blank,
  Line.comment [" Have MinGW "],
  Line.comment [" #undef ZMQ_HAVE_MINGW "],
  Line.blank,
  Line.comment [" Have NetBSD OS "],
  Line.comment [" #undef ZMQ_HAVE_NETBSD "],
  Line.blank,
  Line.comment [" Have NORM protocol extension "],
  Line.comment [" #undef ZMQ_HAVE_NORM "],
  Line.blank,
  Line.comment [" Have OpenBSD OS "],
  Line.comment [" #undef ZMQ_HAVE_OPENBSD "],
  Line.blank,
  Line.comment [" Have OpenPGM extension "],
  Line.comment [" #undef ZMQ_HAVE_OPENPGM "],
  Line.blank,
  Line.comment [" Have DarwinOSX OS "],
  Line.define "ZMQ_HAVE_OSX" "1",
  Line.blank,
  Line.comment [" Have QNX Neutrino OS "],
  Line.comment [" #undef ZMQ_HAVE_QNXNTO "],
  Line.blank,
  Line.comment [" Whether SOCK_CLOEXEC is defined and functioning. "],
  Line.comment [" #undef ZMQ_HAVE_SOCK_CLOEXEC "],
  Line.blank,
  Line.comment [" Have Solaris OS "],
  Line.comment [" #undef ZMQ_HAVE_SOLARIS "],
  Line.blank,
  Line.comment [" Whether SO_KEEPALIVE is supported. "],
  Line.comment [" #undef ZMQ_HAVE_SO_KEEPALIVE "],
  Line.blank,
  Line.comment [" Have SO_PEERCRED socket option "],
  Line.comment [" #undef ZMQ_HAVE_SO_PEERCRED "],
  Line.blank,
  Line.comment [" Whether TCP_KEEPALIVE is supported. "],
  Line.comment [" #undef ZMQ_HAVE_TCP_KEEPALIVE "],
  Line.blank,
  Line.comment [" Whether TCP_KEEPCNT is supported. "],
  Line.comment [" #undef ZMQ_HAVE_TCP_KEEPCNT "],
  Line.blank,
  Line.comment [" Whether TCP_KEEPIDLE is supported. "],
  Line.comment [" #undef ZMQ_HAVE_TCP_KEEPIDLE "],
  Line.blank,
  Line.comment [" Whether TCP_KEEPINTVL is supported. "],
  Line.comment [" #undef ZMQ_HAVE_TCP_KEEPINTVL "],
  Line.blank,
  Line.comment [" Have TIPC support "],
  Line.comment [" #undef ZMQ_HAVE_TIPC "],
  Line.blank,
  Line.comment [" Have uio.h header. "],
  Line.define "ZMQ_HAVE_UIO" "1",
  Line.blank,
  Line.comment [" Have VMCI transport "],
  Line.comment [" #undef ZMQ_HAVE_VMCI "],
  Line.blank,
  Line.comment [" Have Windows OS "],
  Line.comment [" #undef ZMQ_HAVE_WINDOWS "],
  Line.blank,
  Line.comment [" Use 'devpoll' polling system "],
  Line.comment [" #undef ZMQ_USE_DEVPOLL "],
  Line.blank,
  Line.comment [" Use 'epoll' polling system "],
  Line.comment [" #undef ZMQ_USE_EPOLL "],
  Line.blank,
  Line.comment [" Use 'kqueue' polling system "],
  Line.define "ZMQ_USE_KQUEUE" "1",
  Line.blank,
  Line.comment [" Using libsodium for curve encryption "],
  Line.comment [" #undef ZMQ_USE_LIBSODIUM "],
  Line.blank,
  Line.comment [" Use 'poll' polling system "],
  Line.comment [" #undef ZMQ_USE_POLL "],
  Line.blank,
  Line.comment [" Use 'pollset' polling system "],
  Line.comment [" #undef ZMQ_USE_POLLSET "],
  Line.blank,
  Line.comment [" Use 'select' polling system "],
  Line.comment [" #undef ZMQ_USE_SELECT "],
  Line.blank,
  Line.comment [" Using tweetnacl for curve encryption "],
  Line.define "ZMQ_USE_TWEETNACL" "1",
  Line.blank,
  Line.comment [" Define for Solaris 2.5.1 so the uint32_t typedef from <sys/synch.h>,", "   <pthread.h>, or <semaphore.h> is not used. If the typedef were allowed, the", "   #define below would cause a syntax error. "],
  Line.comment [" #undef _UINT32_T "],
  Line.blank,
  Line.comment [" Define to empty if `const' does not conform to ANSI C. "],
  Line.comment [" #undef const "],
  Line.blank,
  Line.comment [" Define to `__inline__' or `__inline' if that's what the C compiler", "   calls it, or to nothing if 'inline' is not supported under any name.  "],
  Line.ifndef "__cplusplus",
  Line.comment [" #undef inline "],
  Line.endif,
  Line.blank,
  Line.comment [" Define to `unsigned int' if <sys/types.h> does not define. "],
  Line.comment [" #undef size_t "],
  Line.blank,
  Line.comment [" Define to `int' if <sys/types.h> does not define. "],
  Line.comment [" #undef ssize_t "],
  Line.blank,
  Line.comment [" Define to the type of an unsigned integer type of width exactly 32 bits if", "   such a type exists and the standard includes do not define it. "],
  Line.comment [" #undef uint32_t "],
  Line.blank,
  Line.comment [" Define to empty if the keyword `volatile' does not work. Warning: valid", "   code using `volatile' can become incorrect without. Disable with care. "],
  Line.comment [" #undef volatile "]
]

/-! ## Preprocessor model -/

/-- A macro environment: the replacement text of every object-like macro that
is currently defined. -/
abbrev Env := String → Option String

/-- Rebind one macro name (`none` removes the definition). -/
def Env.set (env : Env) (n : String) (v : Option String) : Env :=
  fun m => if m = n then v else env m

/-- Preprocessor state: the macro environment and the stack of open
conditional groups, innermost first.  An entry is `true` when the text of that
group is being processed and `false` when it is being skipped. -/
structure PPState where
  env : Env
  conds : List Bool

/-- Whether directives at the current position are processed. -/
def PPState.active (s : PPState) : Bool :=
  s.conds.head?.getD true

/-- Process one item.  `#define` (re)binds and `#undef` unbinds the name when
the current group is active; redefinition replaces the previous text, as the
Clang and GCC preprocessors do after diagnosing it.  `#ifndef` opens a group
that is processed when the enclosing group is and the name is not defined;
`#endif` closes the innermost group and is an error when none is open. -/
def step (s : PPState) : Line → Option PPState
  | .blank => some s
  | .comment _ => some s
  | .define n b => some (if s.active then { s with env := s.env.set n (some b) } else s)
  | .undef n => some (if s.active then { s with env := s.env.set n none } else s)
  | .ifndef n => some { s with conds := (s.active && (s.env n).isNone) :: s.conds }
  | .endif =>
    match s.conds with
    | [] => none
    | _ :: rest => some { s with conds := rest }

/-- Process a sequence of items from a given state. -/
def run : List Line → PPState → Option PPState
  | [], s => some s
  | l :: ls, s => (step s l).bind (run ls)

/-- Process a whole file starting from `env`.  The result is the final macro
environment; a stray `#endif` or an unterminated conditional is an error. -/
def preprocess (ls : List Line) (env : Env) : Option Env :=
  match run ls ⟨env, []⟩ with
  | some ⟨e, []⟩ => some e
  | _ => none

/-! ## Syntactic projections -/

/-- Name and new binding of an active macro directive. -/
def Line.setting? : Line → Option (String × Option String)
  | .define n b => some (n, some b)
  | .undef n => some (n, none)
  | _ => none

/-- Names that are the target of an active `#define`, in source order. -/
def definedNames (ls : List Line) : List String :=
  ls.filterMap fun l => match l with
    | .define n _ => some n
    | _ => none

/-- Names that are the target of an active `#undef`, in source order. -/
def undefinedNames (ls : List Line) : List String :=
  ls.filterMap fun l => match l with
    | .undef n => some n
    | _ => none

/-- Names that are the target of any active macro directive, in source order. -/
def activeTargets (ls : List Line) : List String :=
  ls.filterMap fun l => l.setting?.map Prod.fst

/-- Characters allowed in a macro name. -/
def isIdentChar (c : Char) : Bool :=
  c.isAlphanum || c == '_'

/-- Recognise a commented-out entry of the form `/* #undef NAME */`, the way
autoheader leaves a symbol that `configure` did not define, and return the
name. -/
def Line.commentedUndef? : Line → Option String
  | .comment [t] =>
    let cs := t.toList
    if " #undef ".toList.isPrefixOf cs then
      let rest := cs.drop 8
      let name := rest.takeWhile isIdentChar
      if !name.isEmpty && rest.dropWhile isIdentChar == [' '] then some (String.mk name) else none
    else none
  | _ => none

/-- Names that occur in commented-out `#undef` entries, in source order. -/
def commentedNames (ls : List Line) : List String :=
  ls.filterMap Line.commentedUndef?

/-- The last binding an active directive of `ls` gives to `n`, if any
(`some none` when the last one is an `#undef`).  This ignores conditional
groups, so it describes the file only when every active directive sits outside
them, which `unconditional` checks. -/
def finalSetting (ls : List Line) (n : String) : Option (Option String) :=
  ls.foldl
    (fun acc l => match l.setting? with
      | some (m, v) => if m = n then some v else acc
      | none => acc)
    none

/-- Every `#define` and `#undef` sits outside all conditional groups and the
conditionals are balanced; `d` is the number of groups open at the start. -/
def unconditional : List Line → Nat → Bool
  | [], d => d == 0
  | .ifndef _ :: ls, d => unconditional ls (d + 1)
  | .endif :: ls, d => 0 < d && unconditional ls (d - 1)
  | .define _ _ :: ls, d => d == 0 && unconditional ls d
  | .undef _ :: ls, d => d == 0 && unconditional ls d
  | _ :: ls, d => unconditional ls d

/-- Effect of one item on the environment when it is processed outside every
conditional group. -/
def applyLine (env : Env) (l : Line) : Env :=
  match l.setting? with
  | some (n, v) => env.set n v
  | none => env

/-- Effect of a sequence of items processed outside every conditional group. -/
def applyAll (ls : List Line) (env : Env) : Env :=
  ls.foldl applyLine env

/-- Name of the macro an item is the entry for: the target of an active
directive, or the name in a commented-out `#undef`. -/
def Line.entryName? (l : Line) : Option String :=
  match l.setting? with
  | some (n, _) => some n
  | none => l.commentedUndef?

/-- Names of all macro entries, active or commented out, in source order. -/
def entryNames (ls : List Line) : List String :=
  ls.filterMap Line.entryName?

/-- A documentation comment: a block comment that is not a commented-out
`#undef`. -/
def Line.isDoc : Line → Bool
  | .comment t => (Line.comment t).commentedUndef?.isNone
  | _ => false

/-- Split an item list into paragraphs at the blank lines. -/
def paragraphs : List Line → List (List Line)
  | [] => [[]]
  | .blank :: ls => [] :: paragraphs ls
  | l :: ls =>
    match paragraphs ls with
    | [] => [[l]]
    | p :: ps => (l :: p) :: ps

/-- A paragraph that documents one flag: a documentation comment followed by
exactly one macro entry, which may be wrapped in an `#ifndef` group. -/
def isFlagParagraph : List Line → Bool
  | [doc, d] => doc.isDoc && d.entryName?.isSome
  | [doc, .ifndef _, d, .endif] => doc.isDoc && d.entryName?.isSome
  | _ => false

/-- Replacement text that is the integer literal `0` or `1`. -/
def isBoolLit (b : String) : Bool :=
  b == "0" || b == "1"

/-- Scan the rest of a string literal after its opening quote: the first
unescaped double quote must be the last character. -/
def closesString : List Char → Bool
  | [] => false
  | '"' :: cs => cs.isEmpty
  | '\\' :: [] => false
  | '\\' :: _ :: cs => closesString cs
  | _ :: cs => closesString cs

/-- Replacement text that is a single double-quoted string literal. -/
def isStringLit (b : String) : Bool :=
  match b.toList with
  | '"' :: cs => closesString cs
  | _ => false

/-- Whether a macro name starts with the given text. -/
def startsWith (p n : String) : Bool :=
  p.toList.isPrefixOf n.toList

/-- The polling-backend selectors of ZeroMQ. -/
def pollingBackends : List String :=
  ["ZMQ_USE_DEVPOLL", "ZMQ_USE_EPOLL", "ZMQ_USE_KQUEUE", "ZMQ_USE_POLL",
   "ZMQ_USE_POLLSET", "ZMQ_USE_SELECT"]

/-- The curve-encryption providers of ZeroMQ. -/
def curveProviders : List String :=
  ["ZMQ_USE_LIBSODIUM", "ZMQ_USE_TWEETNACL"]

/-- The operating-system identification macros of ZeroMQ. -/
def osMacros : List String :=
  ["ZMQ_HAVE_AIX", "ZMQ_HAVE_ANDROID", "ZMQ_HAVE_CYGWIN", "ZMQ_HAVE_DRAGONFLY",
   "ZMQ_HAVE_FREEBSD", "ZMQ_HAVE_GNU", "ZMQ_HAVE_HPUX", "ZMQ_HAVE_LINUX",
   "ZMQ_HAVE_MINGW", "ZMQ_HAVE_NETBSD", "ZMQ_HAVE_OPENBSD", "ZMQ_HAVE_OSX",
   "ZMQ_HAVE_QNXNTO", "ZMQ_HAVE_SOLARIS", "ZMQ_HAVE_WINDOWS"]

/-- Physical lines of a block comment body, with the closing delimiter put
back. -/
def renderComment : List String → List String
  | [] => ["*/"]
  | [t] => [t ++ "*/"]
  | t :: ts => t :: renderComment ts

/-- Physical source lines of one item. -/
def Line.render : Line → List String
  | .blank => [""]
  | .comment t =>
    match renderComment t with
    | [] => []
    | l :: ls => ("/*" ++ l) :: ls
  | .define n b => ["#define " ++ n ++ " " ++ b]
  | .undef n => ["#undef " ++ n]
  | .ifndef n => ["#ifndef " ++ n]
  | .endif => ["#endif"]

/-- Physical source lines of an item list; line `k` of the file is entry
`k - 1`. -/
def sourceLines (ls : List Line) : List String :=
  ls.flatMap Line.render

/-- The environment with no macro defined. -/
def emptyEnv : Env := fun _ => none

/-- The environment of a C++ translation unit in which `HAVE_CLOCK_GETTIME`
has already been defined to `1`. -/
def cxxEnv : Env := fun n =>
  if n = "__cplusplus" then some "201103L"
  else if n = "HAVE_CLOCK_GETTIME" then some "1"
  else none

/-! ## General facts about the preprocessor model -/

theorem run_unconditional (ls : List Line) :
    ∀ (d : Nat) (env : Env) (conds : List Bool),
      unconditional ls d = true → conds.length = d →
      run ls ⟨env, conds⟩ = some ⟨applyAll ls env, []⟩ := by
  induction ls with
  | nil =>
    intro d env conds hu hd
    simp [unconditional] at hu
    subst hu
    have : conds = [] := List.length_eq_zero.mp hd
    subst this
    simp [run, applyAll]
  | cons l ls ih =>
    intro d env conds hu hd
    cases l with
    | blank =>
      simp only [unconditional] at hu
      simpa [run, step, applyAll, applyLine, Line.setting?] using ih d env conds hu hd
    | comment t =>
      simp only [unconditional] at hu
      simpa [run, step, applyAll, applyLine, Line.setting?] using ih d env conds hu hd
    | define n b =>
      simp only [unconditional, Bool.and_eq_true, beq_iff_eq] at hu
      obtain ⟨h0, hu⟩ := hu
      subst h0
      have : conds = [] := List.length_eq_zero.mp hd
      subst this
      simpa [run, step, PPState.active, applyAll, applyLine, Line.setting?]
        using ih 0 (env.set n (some b)) [] hu rfl
    | undef n =>
      simp only [unconditional, Bool.and_eq_true, beq_iff_eq] at hu
      obtain ⟨h0, hu⟩ := hu
      subst h0
      have : conds = [] := List.length_eq_zero.mp hd
      subst this
      simpa [run, step, PPState.active, applyAll, applyLine, Line.setting?]
        using ih 0 (env.set n none) [] hu rfl
    | ifndef n =>
      simp only [unconditional] at hu
      simpa [run, step, applyAll, applyLine, Line.setting?]
        using ih (d + 1) env _ hu (by simp [hd])
    | endif =>
      simp only [unconditional, Bool.and_eq_true, decide_eq_true_eq] at hu
      obtain ⟨hpos, hu⟩ := hu
      cases conds with
      | nil => simp at hd; omega
      | cons c rest =>
        simp only [List.length_cons] at hd
        simpa [run, step, applyAll, applyLine, Line.setting?]
          using ih (d - 1) env rest hu (by omega)

theorem preprocess_unconditional (ls : List Line) (env : Env)
    (hu : unconditional ls 0 = true) :
    preprocess ls env = some (applyAll ls env) := by
  simp [preprocess, run_unconditional ls 0 env [] hu rfl]

theorem foldl_applyLine_apply (n : String) (x : Option String) (ls : List Line) :
    ∀ (env : Env) (acc : Option (Option String)), acc.getD x = env n →
      (ls.foldl
        (fun acc l => match l.setting? with
          | some (m, v) => if m = n then some v else acc
          | none => acc) acc).getD x = (ls.foldl applyLine env) n := by
  induction ls with
  | nil => intro env acc h; simpa using h
  | cons l ls ih =>
    intro env acc h
    simp only [List.foldl_cons]
    apply ih
    unfold applyLine
    cases hs : l.setting? with
    | none => simpa using h
    | some p =>
      obtain ⟨m, v⟩ := p
      by_cases hmn : m = n
      · subst hmn; simp [Env.set]
      · have : ¬ n = m := fun h => hmn h.symm
        simp [Env.set, hmn, this, h]

theorem applyAll_apply (ls : List Line) (env : Env) (n : String) :
    applyAll ls env n = (finalSetting ls n).getD (env n) :=
  (foldl_applyLine_apply n (env n) ls env none rfl).symm

theorem header_unconditional : unconditional header 0 = true := by decide

/-- Processing the header succeeds from every environment, and the final
binding of each name is the header's last setting for it, or the initial
binding when the header has none. -/
theorem preprocess_header (env : Env) :
    ∃ e, preprocess header env = some e ∧
      ∀ n, e n = (finalSetting header n).getD (env n) :=
  ⟨applyAll header env, preprocess_unconditional header env header_unconditional,
    applyAll_apply header env⟩

theorem foldl_setting_eq_none (n : String) (ls : List Line)
    (hn : n ∉ activeTargets ls) :
    ∀ acc : Option (Option String),
      ls.foldl
        (fun acc l => match l.setting? with
          | some (m, v) => if m = n then some v else acc
          | none => acc) acc = acc := by
  induction ls with
  | nil => intro acc; rfl
  | cons l ls ih =>
    intro acc
    have hmem : ∀ m v, l.setting? = some (m, v) → m ≠ n := by
      intro m v hs hmn
      apply hn
      subst hmn
      exact List.mem_filterMap.mpr ⟨l, List.mem_cons_self _ _, by simp [hs]⟩
    have htl : n ∉ activeTargets ls := by
      intro h
      apply hn
      obtain ⟨l', hl', hs'⟩ := List.mem_filterMap.mp h
      exact List.mem_filterMap.mpr ⟨l', List.mem_cons_of_mem _ hl', hs'⟩
    simp only [List.foldl_cons]
    cases hs : l.setting? with
    | none => exact ih htl acc
    | some p =>
      obtain ⟨m, v⟩ := p
      simp only [if_neg (hmem m v hs)]
      exact ih htl acc

theorem finalSetting_eq_none {ls : List Line} {n : String} (hn : n ∉ activeTargets ls) :
    finalSetting ls n = none :=
  foldl_setting_eq_none n ls hn none

theorem mem_undefinedNames {ls : List Line} {n : String} (h : Line.undef n ∈ ls) :
    n ∈ undefinedNames ls :=
  List.mem_filterMap.mpr ⟨_, h, rfl⟩

theorem mem_definedNames {ls : List Line} {n b : String} (h : Line.define n b ∈ ls) :
    n ∈ definedNames ls :=
  List.mem_filterMap.mpr ⟨_, h, rfl⟩

theorem header_undefinedNames : undefinedNames header = ["HAVE_CLOCK_GETTIME"] := by
  decide

theorem isFlagParagraph_shape {p : List Line} (h : isFlagParagraph p = true) :
    ∃ doc d, doc.isDoc = true ∧ d.entryName?.isSome = true ∧
      (p = [doc, d] ∨ ∃ g, p = [doc, Line.ifndef g, d, Line.endif]) := by
  unfold isFlagParagraph at h
  split at h
  · next doc d =>
    simp only [Bool.and_eq_true] at h
    exact ⟨doc, d, h.1, h.2, Or.inl rfl⟩
  · next doc g d =>
    simp only [Bool.and_eq_true] at h
    exact ⟨doc, d, h.1, h.2, Or.inr ⟨g, rfl⟩⟩
  · exact absurd h (by simp)

set_option maxRecDepth 100000 in
/-- Size of the embedding: 350 physical lines in 339 items, with 56 active
`#define`s, one active `#undef`, 54 commented-out `#undef`s, and 113 paragraphs
(two leading comment paragraphs and one per flag). -/
theorem header_census :
    (sourceLines header).length = 350 ∧ header.length = 339 ∧
    (definedNames header).length = 56 ∧ (undefinedNames header).length = 1 ∧
    (commentedNames header).length = 54 ∧ (entryNames header).length = 111 ∧
    (paragraphs header).length = 113 := by
  decide!

set_option maxRecDepth 100000 in
/-- The source lines the development refers to most, by line number. -/
theorem header_landmarks :
    (sourceLines header).get? 15 = some "#undef HAVE_CLOCK_GETTIME" ∧
    (sourceLines header).get? 41 = some "/* #undef HAVE_GETHRTIME */" ∧
    (sourceLines header).get? 183 = some "#define RETSIGTYPE void" ∧
    (sourceLines header).get? 213 = some "#define ZMQ_HAVE_CURVE 1" ∧
    (sourceLines header).get? 258 = some "#define ZMQ_HAVE_OSX 1" ∧
    (sourceLines header).get? 306 = some "#define ZMQ_USE_KQUEUE 1" ∧
    (sourceLines header).get? 309 = some "/* #undef ZMQ_USE_LIBSODIUM */" ∧
    (sourceLines header).get? 321 = some "#define ZMQ_USE_TWEETNACL 1" ∧
    ((sourceLines header).drop 333).take 3 =
      ["#ifndef __cplusplus", "/* #undef inline */", "#endif"] := by
  decide!

/-- The `#ifndef __cplusplus` group is processed exactly when `__cplusplus` is
not defined. -/
theorem ifndef_cplusplus_active (env : Env) :
    (step ⟨env, []⟩ ( Line.ifndef "__cplusplus")).map PPState.active =
      some (env "__cplusplus").isNone := by
  simp [step, PPState.active]

set_option maxRecDepth 1000000 in
/-- Running the model on the header from the empty environment. -/
theorem preprocess_header_emptyEnv :
    (preprocess header emptyEnv).map
      (fun e => ["HAVE_CLOCK_GETTIME", "HAVE_ALLOCA_H", "HAVE_DECL_SO_PEERCRED",
        "RETSIGTYPE", "__cplusplus", "ZMQ_USE_EPOLL", "inline"].map e) =
    some [none, some "1", some "0", some "void", none, none, none] := by
  decide!

set_option maxRecDepth 1000000 in
/-- Running the model on the header from `cxxEnv`. -/
theorem preprocess_header_cxxEnv :
    (preprocess header cxxEnv).map
      (fun e => ["HAVE_CLOCK_GETTIME", "HAVE_ALLOCA_H", "HAVE_DECL_SO_PEERCRED",
        "RETSIGTYPE", "__cplusplus", "ZMQ_USE_EPOLL", "inline"].map e) =
    some [none, some "1", some "0", some "void", some "201103L", none, none] := by
  decide!

/-! ## The claims -/

/-- C1: from every initial macro environment, also one in which
`HAVE_CLOCK_GETTIME` is already defined, processing the header succeeds and
leaves `HAVE_CLOCK_GETTIME` undefined. -/
theorem clock_gettime_disabled (env : Env) :
    ∃ e, preprocess header env = some e ∧ e "HAVE_CLOCK_GETTIME" = none := by
  obtain ⟨e, he, hfin⟩ := preprocess_header env
  refine ⟨e, he, ?_⟩
  have hlast : finalSetting header "HAVE_CLOCK_GETTIME" = some none := by decide
  rw [hfin, hlast]
  rfl

/-- C1 at `cxxEnv`, in which `HAVE_CLOCK_GETTIME` is predefined to `1`. -/
theorem clock_gettime_disabled_predefined :
    cxxEnv "HAVE_CLOCK_GETTIME" = some "1" ∧
      ∃ e, preprocess header cxxEnv = some e ∧ e "HAVE_CLOCK_GETTIME" = none :=
  ⟨by decide, clock_gettime_disabled cxxEnv⟩

/-- C2: no macro name is the target of both an active `#define` and an active
`#undef` of the header. -/
theorem no_flag_defined_and_undefined (n : String) (hd : n ∈ definedNames header) :
    n ∉ undefinedNames header := by
  have hclock : "HAVE_CLOCK_GETTIME" ∉ definedNames header := by decide
  intro hu
  rw [header_undefinedNames, List.mem_singleton] at hu
  subst hu
  exact hclock hd

/-- C2 at `HAVE_ALLOCA_H`, which the header defines. -/
theorem no_flag_defined_and_undefined_alloca :
    "HAVE_ALLOCA_H" ∈ definedNames header ∧ "HAVE_ALLOCA_H" ∉ undefinedNames header :=
  ⟨by decide, no_flag_defined_and_undefined "HAVE_ALLOCA_H" (by decide)⟩

set_option maxRecDepth 100000 in
/-- C3: every macro name has at most one active directive in the header, and
indeed at most one entry counting the commented-out ones; after the two
leading comment paragraphs (file banner and generation notes) every paragraph
is one documentation comment followed by exactly one macro entry, active or
commented out (for `inline`, inside its `#ifndef __cplusplus` group). -/
theorem each_flag_set_once :
    (∀ n, (activeTargets header).count n ≤ 1) ∧
    (∀ n, (entryNames header).count n ≤ 1) ∧
    (∀ p ∈ (paragraphs header).take 2, entryNames p = [] ∧ ∀ l ∈ p, l.isDoc = true) ∧
    (∀ p ∈ (paragraphs header).drop 2,
      ∃ doc d, doc.isDoc = true ∧ d.entryName?.isSome = true ∧
        (p = [doc, d] ∨ ∃ g, p = [doc, Line.ifndef g, d, Line.endif])) := by
  refine ⟨?_, ?_, ?_, ?_⟩
  · have h : (activeTargets header).Nodup := by decide!
    exact fun n => List.nodup_iff_count_le_one.mp h n
  · have h : (entryNames header).Nodup := by decide!
    exact fun n => List.nodup_iff_count_le_one.mp h n
  · decide
  · have h : ∀ p ∈ (paragraphs header).drop 2, isFlagParagraph p = true := by decide!
    exact fun p hp => isFlagParagraph_shape (h p hp)

/-- C4: the only active `#undef` of the header targets `HAVE_CLOCK_GETTIME`,
every other active macro directive is a `#define`, and no name that occurs in
a commented-out `#undef` entry (such as `HAVE_GETHRTIME`) has an active
directive. -/
theorem single_undef_is_clock_gettime :
    undefinedNames header = ["HAVE_CLOCK_GETTIME"] ∧
    (∀ l ∈ header, ∀ n v, l.setting? = some (n, v) → n ≠ "HAVE_CLOCK_GETTIME" →
      ∃ b, l = Line.define n b) ∧
    (∀ n ∈ commentedNames header, n ∉ activeTargets header) ∧
    "HAVE_GETHRTIME" ∈ commentedNames header := by
  refine ⟨header_undefinedNames, ?_, by decide!, by decide⟩
  intro l hl n v hs hne
  cases l with
  | define m b =>
    simp only [Line.setting?, Option.some.injEq, Prod.mk.injEq] at hs
    exact ⟨b, by rw [hs.1]⟩
  | undef m =>
    simp only [Line.setting?, Option.some.injEq, Prod.mk.injEq] at hs
    have hm := mem_undefinedNames hl
    rw [header_undefinedNames, List.mem_singleton] at hm
    exact absurd (hs.1 ▸ hm) hne
  | blank => simp [Line.setting?] at hs
  | comment t => simp [Line.setting?] at hs
  | ifndef m => simp [Line.setting?] at hs
  | endif => simp [Line.setting?] at hs

/-- C5, as stated, fails: `RETSIGTYPE` is defined as `void`, which is neither
`0`, `1` nor a string literal. -/
theorem retsigtype_is_void :
    (Line.define "RETSIGTYPE" "void" ∈ header ∧
      isBoolLit "void" = false ∧ isStringLit "void" = false) ∧
    ¬ (∀ n b, Line.define n b ∈ header → isBoolLit b = true ∨ isStringLit b = true) := by
  have hmem : Line.define "RETSIGTYPE" "void" ∈ header := by decide
  refine ⟨⟨hmem, by decide, by decide⟩, ?_⟩
  intro h
  have hno : ¬ (isBoolLit "void" = true ∨ isStringLit "void" = true) := by decide
  exact hno (h _ _ hmem)

set_option maxRecDepth 100000 in
/-- C5, amended: the replacement text of every active `#define` of the header
is `0`, `1` or a double-quoted string literal, except for `RETSIGTYPE`, whose
replacement text is the type name `void`. -/
theorem define_bodies (n b : String) (h : Line.define n b ∈ header) :
    isBoolLit b = true ∨ isStringLit b = true ∨ (n = "RETSIGTYPE" ∧ b = "void") := by
  have hall : ∀ l ∈ header,
      (match l with
        | Line.define n b =>
          decide (isBoolLit b = true ∨ isStringLit b = true ∨ (n = "RETSIGTYPE" ∧ b = "void"))
        | _ => true) = true := by decide
  simpa using hall _ h

/-- C5, amended, at `LT_OBJDIR`, a string constant. -/
theorem define_bodies_lt_objdir :
    Line.define "LT_OBJDIR" "\".libs/\"" ∈ header ∧
      (isBoolLit "\".libs/\"" = true ∨ isStringLit "\".libs/\"" = true ∨
        ("LT_OBJDIR" = "RETSIGTYPE" ∧ "\".libs/\"" = "void")) :=
  ⟨by decide, define_bodies "LT_OBJDIR" "\".libs/\"" (by decide)⟩

set_option maxRecDepth 100000 in
/-- C6: every active directive of the header, and hence none of them inside
the `#ifndef __cplusplus` group, sits outside all conditional groups; so from
any two initial environments processing succeeds and every name the header
targets ends in the same state, while every other name keeps its initial
binding. -/
theorem final_state_independent_of_environment (env₁ env₂ : Env) :
    unconditional header 0 = true ∧
    ∃ e₁ e₂, preprocess header env₁ = some e₁ ∧ preprocess header env₂ = some e₂ ∧
      (∀ n ∈ activeTargets header, e₁ n = e₂ n) ∧
      (∀ n, n ∉ activeTargets header → e₁ n = env₁ n ∧ e₂ n = env₂ n) := by
  obtain ⟨e₁, h₁, f₁⟩ := preprocess_header env₁
  obtain ⟨e₂, h₂, f₂⟩ := preprocess_header env₂
  refine ⟨header_unconditional, e₁, e₂, h₁, h₂, ?_, ?_⟩
  · have hset : ∀ n ∈ activeTargets header, (finalSetting header n).isSome = true := by
      decide!
    intro n hn
    obtain ⟨v, hv⟩ := Option.isSome_iff_exists.mp (hset n hn)
    rw [f₁, f₂, hv]
    rfl
  · intro n hn
    have hnone : finalSetting header n = none := finalSetting_eq_none hn
    rw [f₁, f₂, hnone]
    exact ⟨rfl, rfl⟩

set_option maxRecDepth 100000 in
/-- C7: every actively defined macro whose name starts with `HAVE_` but not
with `HAVE_DECL_` has replacement text `1`; the macros whose name starts with
`HAVE_DECL_` are `HAVE_DECL_LOCAL_PEERCRED` and `HAVE_DECL_SO_PEERCRED`, and
every entry for such a name is an active `#define` with replacement text `0`
or `1`, never an `#undef` or a commented-out entry. -/
theorem have_values_follow_documentation :
    (∀ n b, Line.define n b ∈ header →
      startsWith "HAVE_" n = true → startsWith "HAVE_DECL_" n = false → b = "1") ∧
    (entryNames header).filter (startsWith "HAVE_DECL_") =
      ["HAVE_DECL_LOCAL_PEERCRED", "HAVE_DECL_SO_PEERCRED"] ∧
    (∀ l ∈ header, ∀ n, l.entryName? = some n → startsWith "HAVE_DECL_" n = true →
      ∃ b, l = Line.define n b ∧ (b = "0" ∨ b = "1")) := by
  refine ⟨?_, by decide, ?_⟩
  · have hall : ∀ l ∈ header,
        (match l with
          | Line.define n b =>
            decide (startsWith "HAVE_" n = true → startsWith "HAVE_DECL_" n = false → b = "1")
          | _ => true) = true := by decide
    intro n b h h₁ h₂
    have hb := hall _ h
    simp only [decide_eq_true_eq] at hb
    exact hb h₁ h₂
  · have hall : ∀ l ∈ header,
        (match l.entryName? with
          | some n =>
            !startsWith "HAVE_DECL_" n ||
              decide (l = Line.define n "0" ∨ l = Line.define n "1")
          | none => true) = true := by decide!
    intro l hl n hn hp
    have h := hall l hl
    simp only [hn, hp, Bool.not_true, Bool.false_or, decide_eq_true_eq] at h
    rcases h with h | h
    · exact ⟨"0", h, Or.inl rfl⟩
    · exact ⟨"1", h, Or.inr rfl⟩

set_option maxRecDepth 100000 in
/-- C8: each of the six polling-backend selectors has an entry in the header;
of them the header actively defines exactly `ZMQ_USE_KQUEUE`, with value `1`,
and has no active directive for the other five; so after processing
`ZMQ_USE_KQUEUE` is `1` and the other five are as the initial environment had
them. -/
theorem exactly_one_polling_backend :
    (∀ n ∈ pollingBackends, n ∈ entryNames header) ∧
    Line.define "ZMQ_USE_KQUEUE" "1" ∈ header ∧
    (∀ n ∈ pollingBackends, n ∈ definedNames header ↔ n = "ZMQ_USE_KQUEUE") ∧
    (∀ n ∈ pollingBackends, n ≠ "ZMQ_USE_KQUEUE" → n ∉ activeTargets header) ∧
    (∀ env : Env, ∃ e, preprocess header env = some e ∧
      e "ZMQ_USE_KQUEUE" = some "1" ∧
      ∀ n ∈ pollingBackends, n ≠ "ZMQ_USE_KQUEUE" → e n = env n) := by
  have hother : ∀ n ∈ pollingBackends, n ≠ "ZMQ_USE_KQUEUE" → n ∉ activeTargets header := by
    decide
  refine ⟨by decide, by decide, by decide, hother, ?_⟩
  intro env
  obtain ⟨e, he, hfin⟩ := preprocess_header env
  refine ⟨e, he, ?_, ?_⟩
  · have hlast : finalSetting header "ZMQ_USE_KQUEUE" = some (some "1") := by decide
    rw [hfin, hlast]
    rfl
  · intro n hn hne
    rw [hfin, finalSetting_eq_none (hother n hn hne)]
    rfl

set_option maxRecDepth 100000 in
/-- C9: the header defines `ZMQ_HAVE_CURVE`, and of the two curve providers,
each of which has an entry, it actively defines exactly `ZMQ_USE_TWEETNACL`
and has no active directive for `ZMQ_USE_LIBSODIUM`; so curve is enabled and
exactly one provider is selected, and after processing both `ZMQ_HAVE_CURVE`
and `ZMQ_USE_TWEETNACL` are `1`. -/
theorem curve_configuration_consistent :
    (∀ n ∈ curveProviders, n ∈ entryNames header) ∧
    Line.define "ZMQ_HAVE_CURVE" "1" ∈ header ∧
    Line.define "ZMQ_USE_TWEETNACL" "1" ∈ header ∧
    (∀ n ∈ curveProviders, n ∈ definedNames header ↔ n = "ZMQ_USE_TWEETNACL") ∧
    "ZMQ_USE_LIBSODIUM" ∉ activeTargets header ∧
    ("ZMQ_HAVE_CURVE" ∈ definedNames header ↔
      (curveProviders.filter (fun n => decide (n ∈ definedNames header))).length = 1) ∧
    (∀ env : Env, ∃ e, preprocess header env = some e ∧
      e "ZMQ_HAVE_CURVE" = some "1" ∧ e "ZMQ_USE_TWEETNACL" = some "1" ∧
      e "ZMQ_USE_LIBSODIUM" = env "ZMQ_USE_LIBSODIUM") := by
  have hsodium : "ZMQ_USE_LIBSODIUM" ∉ activeTargets header := by decide
  refine ⟨by decide, by decide, by decide, by decide, hsodium, by decide, ?_⟩
  intro env
  obtain ⟨e, he, hfin⟩ := preprocess_header env
  refine ⟨e, he, ?_, ?_, ?_⟩
  · have hlast : finalSetting header "ZMQ_HAVE_CURVE" = some (some "1") := by decide
    rw [hfin, hlast]
    rfl
  · have hlast : finalSetting header "ZMQ_USE_TWEETNACL" = some (some "1") := by decide
    rw [hfin, hlast]
    rfl
  · rw [hfin, finalSetting_eq_none hsodium]
    rfl

set_option maxRecDepth 100000 in
/-- C10: each of the fifteen operating-system macros has an entry in the
header; of them the header actively defines exactly `ZMQ_HAVE_OSX`, with value
`1`, and has no active directive for any of the others; so after processing
`ZMQ_HAVE_OSX` is `1` and the others are as the initial environment had them. -/
theorem exactly_one_target_os :
    (∀ n ∈ osMacros, n ∈ entryNames header) ∧
    Line.define "ZMQ_HAVE_OSX" "1" ∈ header ∧
    (∀ n ∈ osMacros, n ∈ definedNames header ↔ n = "ZMQ_HAVE_OSX") ∧
    (∀ n ∈ osMacros, n ≠ "ZMQ_HAVE_OSX" → n ∉ activeTargets header) ∧
    (∀ env : Env, ∃ e, preprocess header env = some e ∧
      e "ZMQ_HAVE_OSX" = some "1" ∧
      ∀ n ∈ osMacros, n ≠ "ZMQ_HAVE_OSX" → e n = env n) := by
  have hother : ∀ n ∈ osMacros, n ≠ "ZMQ_HAVE_OSX" → n ∉ activeTargets header := by
    decide
  refine ⟨by decide, by decide, by decide, hother, ?_⟩
  intro env
  obtain ⟨e, he, hfin⟩ := preprocess_header env
  refine ⟨e, he, ?_, ?_⟩
  · have hlast : finalSetting header "ZMQ_HAVE_OSX" = some (some "1") := by decide
    rw [hfin, hlast]
    rfl
  · intro n hn hne
    rw [hfin, finalSetting_eq_none (hother n hn hne)]
    rfl

end PlatformPatched
